import Mathlib

/-!
# Verification of the E3DC switch platform (`custom_components/e3dc_rscp/switch.py`)

A shallow embedding of the switch platform of the `hacs-e3dc` integration.

Modelling conventions:

* The coordinator is external to this file's code; the platform only reads its
  `data` mapping, its `wallboxes` list and its `device_info()` accessor, and
  invokes four of its async setter methods.  A bound action closure such as
  `lambda coordinator: coordinator.async_set_powersave(True)` is embedded as
  the reified method call it performs (`CoordinatorCall.async_set_powersave true`),
  since the closures do nothing but call one fixed method with fixed arguments.
* `coordinator.data` is a string-keyed mapping whose values (for switch keys)
  are booleans; `dict.get` is embedded as `dataGet`, which returns `none` for
  an absent key instead of raising.
* Side effects are made explicit as event traces: `async_write_ha_state`
  becomes an `Event.writeHaState` entry recording the published state and icon
  snapshot, and awaiting a bound coordinator action becomes an
  `Event.coordinatorCall` entry.  The order of the trace is the order the
  effects happen in the Python source.
* Awaiting the remote action may return a boolean or raise; this outcome is
  supplied by an environment function `remote : CoordinatorCall → Except Unit Bool`
  (`Except.error` models a raised exception).  The Python method discards the
  returned value and installs no exception handler, which the embedding
  mirrors by propagating the outcome unused.
* Python `KeyError` and `IndexError` (both subclasses of `LookupError`) raised
  during wallbox setup are embedded as the `LookupError` error type of an
  `Except` computation; dict/index accesses on wallbox entries go through
  `getKey` / `getFirst`.
* The coordinator's `data` is mutated externally between refreshes, so
  `_handle_coordinator_update` takes the mapping current at refresh time as an
  explicit argument.
-/

/-- The switch device classes used by this platform
(`SwitchDeviceClass.SWITCH` / `SwitchDeviceClass.OUTLET`). -/
inductive SwitchDeviceClass where
  | switch
  | outlet
  deriving DecidableEq, Repr

/-- The entity categories used by this platform (`EntityCategory.CONFIG`). -/
inductive EntityCategory where
  | config
  deriving DecidableEq, Repr

/-- A reified call to one of the coordinator's async setter methods.  The
descriptors' action closures each perform exactly one such call with fixed
arguments, so an action is embedded by the call it makes. -/
inductive CoordinatorCall where
  | async_set_powersave (enabled : Bool)
  | async_set_weather_regulated_charge (enabled : Bool)
  | async_set_wallbox_sun_mode (enabled : Bool) (index : Nat)
  | async_set_wallbox_schuko (enabled : Bool) (index : Nat)
  deriving DecidableEq, Repr

/-- Python `LookupError`: `KeyError` (missing dict key) and `IndexError`
(out-of-range sequence index) are its two subclasses relevant here. -/
inductive LookupError where
  | keyError
  | indexError
  deriving DecidableEq, Repr

/-- An observable side effect of an entity method: publishing the entity's
state to the host (`async_write_ha_state`, recording the `is_on` and `icon`
snapshot being published), or invoking a coordinator setter method. -/
inductive Event where
  | writeHaState (isOn : Option Bool) (icon : Option String)
  | coordinatorCall (call : CoordinatorCall)
  deriving DecidableEq, Repr

/-- Device metadata (`DeviceInfo`): the platform touches only the
`identifiers` set (embedded as a list of 2-tuples, in iteration order) and
carries the rest opaquely; `name` stands in for the remaining fields so that
distinct devices can be told apart. -/
structure DeviceInfo where
  identifiers : List (String × String)
  name : Option String := none
  deriving DecidableEq, Repr

/-- One entry of `coordinator.wallboxes`.  The platform reads its
`"deviceInfo"`, `"key"` and `"index"` entries by dict lookup; a field is
`none` when that dict key is absent (so that the lookup raises `KeyError`). -/
structure WallboxEntry where
  deviceInfo : Option DeviceInfo := none
  key : Option String := none
  index : Option Nat := none
  deriving DecidableEq, Repr

/-- The externally-owned `E3DCCoordinator`, restricted to the surface this
platform consumes: the current-data mapping, the wallbox list, and the
default device metadata returned by `device_info()`. -/
structure Coordinator where
  data : List (String × Bool)
  wallboxes : List WallboxEntry
  device_info : DeviceInfo
  deriving DecidableEq, Repr

/-- `dict.get(key)`: the value stored for `key`, or `none` when the key is
absent (no exception). -/
def dataGet (data : List (String × Bool)) (key : String) : Option Bool :=
  (data.find? (fun kv => kv.1 == key)).map (fun kv => kv.2)

/-- `E3DCSwitchEntityDescription`: the static per-toggle metadata, including
the optional on/off icon pair and the optional bound turn-on / turn-off
actions (reified as `CoordinatorCall`s).  Defaults follow the dataclass
defaults (`None` for optional fields, `entity_registry_enabled_default=True`
inherited from the base description). -/
structure E3DCSwitchEntityDescription where
  key : String
  translation_key : Option String := none
  name : Option String := none
  on_icon : Option String := none
  off_icon : Option String := none
  device_class : Option SwitchDeviceClass := none
  entity_category : Option EntityCategory := none
  entity_registry_enabled_default : Bool := true
  async_turn_on_action : Option CoordinatorCall := none
  async_turn_off_action : Option CoordinatorCall := none
  deriving DecidableEq, Repr

/-- First entry of `SWITCHES`: the power-saving config switch. -/
def powersavingSwitchDescription : E3DCSwitchEntityDescription :=
  { key := "pset-powersaving-enabled"
    translation_key := some "pset-powersaving-enabled"
    on_icon := some "mdi:leaf"
    off_icon := some "mdi:leaf-off"
    device_class := some SwitchDeviceClass.switch
    entity_category := some EntityCategory.config
    async_turn_on_action := some (CoordinatorCall.async_set_powersave true)
    async_turn_off_action := some (CoordinatorCall.async_set_powersave false)
    entity_registry_enabled_default := false }

/-- Second entry of `SWITCHES`: the weather-regulated-charging config switch. -/
def weatherRegulationSwitchDescription : E3DCSwitchEntityDescription :=
  { key := "pset-weatherregulationenabled"
    translation_key := some "pset-weatherregulationenabled"
    on_icon := some "mdi:weather-sunny"
    off_icon := some "mdi:weather-sunny-off"
    device_class := some SwitchDeviceClass.switch
    entity_category := some EntityCategory.config
    async_turn_on_action :=
      some (CoordinatorCall.async_set_weather_regulated_charge true)
    async_turn_off_action :=
      some (CoordinatorCall.async_set_weather_regulated_charge false) }

/-- The static toggle catalog `SWITCHES`. -/
def SWITCHES : List E3DCSwitchEntityDescription :=
  [powersavingSwitchDescription, weatherRegulationSwitchDescription]

/-- The `E3DCSwitch` entity.  Fields mirror the attributes set in
`__init__`: `attr_is_on` is `_attr_is_on` (an optional boolean; `none` is the
UNKNOWN state), `attr_unique_id` is `_attr_unique_id`, `has_custom_icons` is
`_has_custom_icons`, `deviceInfoAttr` is `_deviceInfo`, and `attr_icon` is the
inherited static `_attr_icon` default (never assigned by this platform, hence
`none` at construction). -/
structure E3DCSwitch where
  coordinator : Coordinator
  entity_description : E3DCSwitchEntityDescription
  attr_is_on : Option Bool
  attr_unique_id : String
  has_custom_icons : Bool
  attr_icon : Option String
  deviceInfoAttr : DeviceInfo
  deriving DecidableEq, Repr

/-- `E3DCSwitch.__init__(coordinator, description, uid, device_info=None)`:
the initial state is `coordinator.data.get(description.key)`, the unique id is
`f"{uid}_{description.key}"`, `_has_custom_icons` records whether both icons
of the pair are configured, and `_deviceInfo` is the supplied device metadata
or, when `None`, the coordinator's `device_info()`. -/
def E3DCSwitch.init (coordinator : Coordinator)
    (description : E3DCSwitchEntityDescription) (uid : String)
    (device_info : Option DeviceInfo) : E3DCSwitch :=
  { coordinator := coordinator
    entity_description := description
    attr_is_on := dataGet coordinator.data description.key
    attr_unique_id := uid ++ "_" ++ description.key
    has_custom_icons :=
      description.on_icon.isSome && description.off_icon.isSome
    attr_icon := none
    deviceInfoAttr := device_info.getD coordinator.device_info }

/-- The inherited `is_on` property: returns `_attr_is_on`. -/
def E3DCSwitch.is_on (e : E3DCSwitch) : Option Bool :=
  e.attr_is_on

/-- The `icon` property: with custom icons, `on_icon` when `self.is_on` is
truthy and `off_icon` otherwise (Python truthiness: both `False` and `None`
take the `off_icon` branch), else the static `_attr_icon`. -/
def E3DCSwitch.icon (e : E3DCSwitch) : Option String :=
  if e.has_custom_icons then
    if e.is_on = some true then e.entity_description.on_icon
    else e.entity_description.off_icon
  else e.attr_icon

/-- The state snapshot `async_write_ha_state` publishes to the host. -/
def E3DCSwitch.write_ha_state_event (e : E3DCSwitch) : Event :=
  Event.writeHaState e.is_on e.icon

/-- `_handle_coordinator_update`: overwrite `_attr_is_on` with
`self.coordinator.data.get(key)` (the mapping current at refresh time is the
explicit `data` argument) and publish the state.  Returns the updated entity
and the trace of effects. -/
def E3DCSwitch.handle_coordinator_update (data : List (String × Bool))
    (e : E3DCSwitch) : E3DCSwitch × List Event :=
  let updated := { e with attr_is_on := dataGet data e.entity_description.key }
  (updated, [updated.write_ha_state_event])

/-- `async_turn_on`: when a turn-on action is bound, set `_attr_is_on = True`,
publish the state, then await the bound action (whose outcome `remote`
supplies; the returned boolean is discarded and a raised exception
propagates).  With no bound action the method does nothing.  Returns the
final entity, the effect trace in order, and the method's outcome. -/
def E3DCSwitch.async_turn_on (remote : CoordinatorCall → Except Unit Bool)
    (e : E3DCSwitch) : E3DCSwitch × List Event × Except Unit Unit :=
  match e.entity_description.async_turn_on_action with
  | some action =>
      let updated := { e with attr_is_on := some true }
      (updated,
        [updated.write_ha_state_event, Event.coordinatorCall action],
        (remote action).map (fun _ => ()))
  | none => (e, [], Except.ok ())

/-- `async_turn_off`: symmetric to `async_turn_on`, asserting `False`. -/
def E3DCSwitch.async_turn_off (remote : CoordinatorCall → Except Unit Bool)
    (e : E3DCSwitch) : E3DCSwitch × List Event × Except Unit Unit :=
  match e.entity_description.async_turn_off_action with
  | some action =>
      let updated := { e with attr_is_on := some false }
      (updated,
        [updated.write_ha_state_event, Event.coordinatorCall action],
        (remote action).map (fun _ => ()))
  | none => (e, [], Except.ok ())

/-- The `device_info` property: returns `_deviceInfo`. -/
def E3DCSwitch.device_info (e : E3DCSwitch) : DeviceInfo :=
  e.deviceInfoAttr

/-- `wallbox["..."]`-style dict access: `KeyError` when the key is absent. -/
def getKey {α : Type} : Option α → Except LookupError α
  | some a => Except.ok a
  | none => Except.error LookupError.keyError

/-- `list(...)[0]`: the first element, `IndexError` when the list is empty. -/
def getFirst {α : Type} : List α → Except LookupError α
  | a :: _ => Except.ok a
  | [] => Except.error LookupError.indexError

/-- The per-wallbox sun-mode descriptor synthesized in the setup loop, with
its actions closed over the wallbox's index. -/
def wallbox_sun_mode_description (index : Nat) (wallbox_key : String) :
    E3DCSwitchEntityDescription :=
  { key := wallbox_key ++ "-sun-mode"
    translation_key := some "wallbox-sun-mode"
    name := some "Wallbox Sun Mode"
    on_icon := some "mdi:weather-sunny"
    off_icon := some "mdi:weather-sunny-off"
    device_class := some SwitchDeviceClass.switch
    async_turn_on_action :=
      some (CoordinatorCall.async_set_wallbox_sun_mode true index)
    async_turn_off_action :=
      some (CoordinatorCall.async_set_wallbox_sun_mode false index) }

/-- The per-wallbox Schuko descriptor synthesized in the setup loop. -/
def wallbox_schuko_description (index : Nat) (wallbox_key : String) :
    E3DCSwitchEntityDescription :=
  { key := wallbox_key ++ "-schuko"
    translation_key := some "wallbox-schuko"
    name := some "Wallbox Schuko"
    on_icon := some "mdi:power-plug"
    off_icon := some "mdi:power-plug-off"
    device_class := some SwitchDeviceClass.outlet
    async_turn_on_action :=
      some (CoordinatorCall.async_set_wallbox_schuko true index)
    async_turn_off_action :=
      some (CoordinatorCall.async_set_wallbox_schuko false index)
    entity_registry_enabled_default := false }

/-- The body of the wallbox loop in `async_setup_entry`: look up the
wallbox's `deviceInfo`, the second component of the first identifier tuple
(`list(wallbox["deviceInfo"]["identifiers"])[0][1]`), its `key` and its
`index`, then build the sun-mode and Schuko entities for it.  Any missing
piece raises a `LookupError`. -/
def wallboxEntities (coordinator : Coordinator) (wallbox : WallboxEntry) :
    Except LookupError (List E3DCSwitch) := do
  let deviceInfo ← getKey wallbox.deviceInfo
  let firstIdentifier ← getFirst deviceInfo.identifiers
  let unique_id := firstIdentifier.2
  let wallbox_key ← getKey wallbox.key
  let index ← getKey wallbox.index
  return [E3DCSwitch.init coordinator
            (wallbox_sun_mode_description index wallbox_key)
            unique_id (some deviceInfo),
          E3DCSwitch.init coordinator
            (wallbox_schuko_description index wallbox_key)
            unique_id (some deviceInfo)]

/-- The `for wallbox in coordinator.wallboxes` loop: the wallbox entities in
order, or the first `LookupError` raised. -/
def setupWallboxes (coordinator : Coordinator) :
    List WallboxEntry → Except LookupError (List E3DCSwitch)
  | [] => Except.ok []
  | wallbox :: rest => do
      let entities ← wallboxEntities coordinator wallbox
      let more ← setupWallboxes coordinator rest
      return entities ++ more

/-- `async_setup_entry`: one entity per static descriptor (built with the
integration's unique id and no explicit device info), then the per-wallbox
entities; `async_add_entities` receives the whole list only when no
`LookupError` was raised, so an error registers no entities at all. -/
def async_setup_entry (entry_unique_id : String) (coordinator : Coordinator) :
    Except LookupError (List E3DCSwitch) := do
  let entities := SWITCHES.map
    (fun description =>
      E3DCSwitch.init coordinator description entry_unique_id none)
  let wallboxEntityList ← setupWallboxes coordinator coordinator.wallboxes
  return entities ++ wallboxEntityList

/-- `true` exactly on `Except.error`. -/
def exceptIsError {ε α : Type} : Except ε α → Bool
  | Except.error _ => true
  | Except.ok _ => false

/-! ## Helper lemmas on the `Except` monad -/

/-- `Except.ok a >>= f` evaluates `f a`. -/
theorem exceptOk_bind {ε α β : Type} (a : α) (f : α → Except ε β) :
    (Except.ok a >>= f : Except ε β) = f a := rfl

/-- `Except.error err >>= f` short-circuits to the error. -/
theorem exceptError_bind {ε α β : Type} (err : ε) (f : α → Except ε β) :
    ((Except.error err : Except ε α) >>= f) = Except.error err := rfl

/-- `pure` for `Except` is `Except.ok`. -/
theorem exceptPure {ε α : Type} (a : α) :
    (pure a : Except ε α) = Except.ok a := rfl

/-- Inversion of a successful `Except` bind. -/
theorem exceptBind_eq_ok {ε α β : Type} {x : Except ε α} {f : α → Except ε β}
    {b : β} (h : x >>= f = Except.ok b) :
    ∃ a, x = Except.ok a ∧ f a = Except.ok b := by
  cases x with
  | error e => exact absurd h (by rw [exceptError_bind]; exact fun hc => Except.noConfusion hc)
  | ok a => exact ⟨a, rfl, h⟩

/-! ## Sample data used by the witnesses -/

/-- Device metadata of the main unit, as returned by
`coordinator.device_info()`. -/
def sampleDeviceInfo : DeviceInfo :=
  { identifiers := [("e3dc_rscp", "main-device")], name := some "E3DC Main" }

/-- A coordinator with an empty data mapping and no wallboxes. -/
def sampleCoordinator : Coordinator :=
  { data := [], wallboxes := [], device_info := sampleDeviceInfo }

/-- The power-saving entity built against `sampleCoordinator`. -/
def powersaveSwitch : E3DCSwitch :=
  E3DCSwitch.init sampleCoordinator powersavingSwitchDescription "e3dc" none

/-- An entity built from a descriptor with no bound actions and no icons. -/
def actionlessSwitch : E3DCSwitch :=
  E3DCSwitch.init sampleCoordinator { key := "plain" } "e3dc" none

/-- A remote environment in which every coordinator call succeeds. -/
def sampleRemote : CoordinatorCall → Except Unit Bool :=
  fun _ => Except.ok true

/-- A remote environment in which every coordinator call raises. -/
def failingRemote : CoordinatorCall → Except Unit Bool :=
  fun _ => Except.error ()

/-! ## Claims -/

/-- **C1.** Calling turn-on on an entity whose descriptor has a bound turn-on
action sets the entity's state to ON and publishes it (the published trace
entry precedes the coordinator call in the effect trace, i.e. publication is
synchronous and happens before the bound remote action is invoked or
resolves), with the icon reporting the on-icon when an on-icon/off-icon pair
is configured; symmetrically, turn-off sets state to OFF, publishes it
before invoking the turn-off action, and reports the off-icon. -/
theorem turn_on_turn_off_optimistic_publish (e : E3DCSwitch)
    (remote : CoordinatorCall → Except Unit Bool)
    (onAct offAct : CoordinatorCall)
    (hinv : e.has_custom_icons =
      (e.entity_description.on_icon.isSome && e.entity_description.off_icon.isSome))
    (hon : e.entity_description.async_turn_on_action = some onAct)
    (hoff : e.entity_description.async_turn_off_action = some offAct) :
    ((e.async_turn_on remote).1.attr_is_on = some true ∧
      (e.async_turn_on remote).2.1 =
        [Event.writeHaState (some true) (e.async_turn_on remote).1.icon,
         Event.coordinatorCall onAct] ∧
      (∀ a b, e.entity_description.on_icon = some a →
        e.entity_description.off_icon = some b →
        (e.async_turn_on remote).1.icon = some a)) ∧
    ((e.async_turn_off remote).1.attr_is_on = some false ∧
      (e.async_turn_off remote).2.1 =
        [Event.writeHaState (some false) (e.async_turn_off remote).1.icon,
         Event.coordinatorCall offAct] ∧
      (∀ a b, e.entity_description.on_icon = some a →
        e.entity_description.off_icon = some b →
        (e.async_turn_off remote).1.icon = some b)) := by
  refine ⟨⟨?_, ?_, ?_⟩, ?_, ?_, ?_⟩ <;>
    simp [E3DCSwitch.async_turn_on, E3DCSwitch.async_turn_off, hon, hoff,
      E3DCSwitch.write_ha_state_event, E3DCSwitch.is_on]
  · intro a b ha hb
    simp [E3DCSwitch.icon, E3DCSwitch.is_on, hinv, ha, hb]
  · intro a b ha hb
    simp [E3DCSwitch.icon, E3DCSwitch.is_on, hinv, ha, hb]

/-- **C1 witness.** The power-saving switch: turn-on asserts ON, publishes
the on-state and on-icon before the coordinator call, and turn-off asserts
OFF with the off-icon. -/
theorem turn_on_turn_off_optimistic_publish_witness :
    (powersaveSwitch.async_turn_on sampleRemote).1.attr_is_on = some true ∧
    (powersaveSwitch.async_turn_on sampleRemote).2.1 =
      [Event.writeHaState (some true)
        (powersaveSwitch.async_turn_on sampleRemote).1.icon,
       Event.coordinatorCall (CoordinatorCall.async_set_powersave true)] ∧
    (powersaveSwitch.async_turn_on sampleRemote).1.icon = some "mdi:leaf" ∧
    (powersaveSwitch.async_turn_off sampleRemote).1.attr_is_on = some false ∧
    (powersaveSwitch.async_turn_off sampleRemote).1.icon = some "mdi:leaf-off" := by
  have T := turn_on_turn_off_optimistic_publish powersaveSwitch sampleRemote
    (CoordinatorCall.async_set_powersave true)
    (CoordinatorCall.async_set_powersave false) rfl rfl rfl
  exact ⟨T.1.1, T.1.2.1, T.1.2.2 "mdi:leaf" "mdi:leaf-off" rfl rfl,
    T.2.1, T.2.2.2 "mdi:leaf" "mdi:leaf-off" rfl rfl⟩

/-- **C2.** For every entity whose descriptor has no turn-on action bound,
calling turn-on is a no-op: the entity is unchanged, the effect trace is
empty (nothing published, no coordinator method invoked) and the method
returns normally; the same holds for turn-off with no turn-off action
bound. -/
theorem unbound_action_noop (e : E3DCSwitch)
    (remote : CoordinatorCall → Except Unit Bool) :
    (e.entity_description.async_turn_on_action = none →
      e.async_turn_on remote = (e, [], Except.ok ())) ∧
    (e.entity_description.async_turn_off_action = none →
      e.async_turn_off remote = (e, [], Except.ok ())) := by
  constructor
  · intro h
    simp [E3DCSwitch.async_turn_on, h]
  · intro h
    simp [E3DCSwitch.async_turn_off, h]

/-- **C2 witness.** Turn-on and turn-off on the action-less switch are
no-ops. -/
theorem unbound_action_noop_witness :
    actionlessSwitch.async_turn_on sampleRemote =
      (actionlessSwitch, [], Except.ok ()) ∧
    actionlessSwitch.async_turn_off sampleRemote =
      (actionlessSwitch, [], Except.ok ()) := by
  have T := unbound_action_noop actionlessSwitch sampleRemote
  exact ⟨T.1 rfl, T.2 rfl⟩

/-- **C3.** After a turn-on (or turn-off) with a bound action, the final
entity state is the optimistically asserted value whatever the remote
outcome (the final entity does not depend on the remote environment at all,
so a raised exception or a `False` return performs no rollback), and it
stays that way until the next coordinator refresh overwrites it with the
coordinator's current value for the key. -/
theorem no_rollback_until_refresh (e : E3DCSwitch)
    (remote : CoordinatorCall → Except Unit Bool)
    (onAct offAct : CoordinatorCall)
    (hon : e.entity_description.async_turn_on_action = some onAct)
    (hoff : e.entity_description.async_turn_off_action = some offAct) :
    ((e.async_turn_on remote).1.attr_is_on = some true ∧
      (∀ remote2, (e.async_turn_on remote2).1 = (e.async_turn_on remote).1) ∧
      (∀ data, ((e.async_turn_on remote).1.handle_coordinator_update data).1.attr_is_on =
        dataGet data e.entity_description.key)) ∧
    ((e.async_turn_off remote).1.attr_is_on = some false ∧
      (∀ remote2, (e.async_turn_off remote2).1 = (e.async_turn_off remote).1) ∧
      (∀ data, ((e.async_turn_off remote).1.handle_coordinator_update data).1.attr_is_on =
        dataGet data e.entity_description.key)) := by
  refine ⟨⟨?_, ?_, ?_⟩, ?_, ?_, ?_⟩ <;>
    simp [E3DCSwitch.async_turn_on, E3DCSwitch.async_turn_off, hon, hoff,
      E3DCSwitch.handle_coordinator_update]

/-- **C3 witness.** With a raising remote, the power-saving switch still
reads ON after turn-on, and a refresh against a mapping holding `false`
overwrites it to OFF. -/
theorem no_rollback_until_refresh_witness :
    (powersaveSwitch.async_turn_on failingRemote).1.attr_is_on = some true ∧
    ((powersaveSwitch.async_turn_on failingRemote).1.handle_coordinator_update
        [("pset-powersaving-enabled", false)]).1.attr_is_on = some false := by
  have T := no_rollback_until_refresh powersaveSwitch failingRemote
    (CoordinatorCall.async_set_powersave true)
    (CoordinatorCall.async_set_powersave false) rfl rfl
  exact ⟨T.1.1, T.1.2.2 [("pset-powersaving-enabled", false)]⟩

/-- **C4.** On every coordinator refresh the entity's state is overwritten
unconditionally with the coordinator's current value for the descriptor key
(the result does not mention the previous, possibly optimistic, state); in
particular with mapping `{"pset-powersaving-enabled": true}` the
power-saving entity reads ON after refresh, and OFF when the mapping holds
`false`. -/
theorem refresh_overwrites_state :
    (∀ (e : E3DCSwitch) (data : List (String × Bool)),
      (e.handle_coordinator_update data).1.attr_is_on =
        dataGet data e.entity_description.key) ∧
    (powersaveSwitch.handle_coordinator_update
        [("pset-powersaving-enabled", true)]).1.attr_is_on = some true ∧
    (powersaveSwitch.handle_coordinator_update
        [("pset-powersaving-enabled", false)]).1.attr_is_on = some false := by
  refine ⟨fun e data => rfl, ?_, ?_⟩ <;> rfl

/-! ## Helper lemmas on the entity factory -/

/-- The two static descriptors are distinct. -/
theorem staticDescriptions_ne :
    powersavingSwitchDescription ≠ weatherRegulationSwitchDescription := by
  decide

/-- Neither static descriptor carries a `name`. -/
theorem staticDescriptions_name_none (d : E3DCSwitchEntityDescription)
    (hd : d ∈ SWITCHES) : d.name = none := by
  simp only [SWITCHES, List.mem_cons, List.mem_singleton, List.not_mem_nil,
    or_false] at hd
  rcases hd with rfl | rfl <;> rfl

/-- Every entity a wallbox contributes carries one of the two wallbox
descriptor names. -/
theorem wallboxEntities_name (c : Coordinator) (wb : WallboxEntry)
    (l : List E3DCSwitch) (h : wallboxEntities c wb = Except.ok l) :
    ∀ e ∈ l, e.entity_description.name = some "Wallbox Sun Mode" ∨
      e.entity_description.name = some "Wallbox Schuko" := by
  obtain ⟨odi, okey, oidx⟩ := wb
  cases odi with
  | none => simp [wallboxEntities, getKey, exceptError_bind] at h
  | some di =>
    obtain ⟨ids, nm⟩ := di
    cases ids with
    | nil => simp [wallboxEntities, getKey, getFirst, exceptOk_bind, exceptError_bind] at h
    | cons firstId restIds =>
      cases okey with
      | none => simp [wallboxEntities, getKey, getFirst, exceptOk_bind, exceptError_bind] at h
      | some k =>
        cases oidx with
        | none => simp [wallboxEntities, getKey, getFirst, exceptOk_bind, exceptError_bind] at h
        | some i =>
          have hl : l =
              [E3DCSwitch.init c (wallbox_sun_mode_description i k) firstId.2
                (some ⟨firstId :: restIds, nm⟩),
               E3DCSwitch.init c (wallbox_schuko_description i k) firstId.2
                (some ⟨firstId :: restIds, nm⟩)] := by
            have := h.symm
            simpa [wallboxEntities, getKey, getFirst, exceptOk_bind, exceptPure] using this
          subst hl
          intro e he
          rcases List.mem_cons.mp he with rfl | he2
          · exact Or.inl rfl
          · rcases List.mem_singleton.mp he2 with rfl
            exact Or.inr rfl

/-- Every entity the wallbox loop contributes carries one of the two wallbox
descriptor names. -/
theorem setupWallboxes_name (c : Coordinator) :
    ∀ (ws : List WallboxEntry) (l : List E3DCSwitch),
      setupWallboxes c ws = Except.ok l →
      ∀ e ∈ l, e.entity_description.name = some "Wallbox Sun Mode" ∨
        e.entity_description.name = some "Wallbox Schuko" := by
  intro ws
  induction ws with
  | nil =>
    intro l h e he
    simp [setupWallboxes] at h
    subst h
    simp at he
  | cons wb rest ih =>
    intro l h e he
    simp only [setupWallboxes] at h
    obtain ⟨chunk, hchunk, h⟩ := exceptBind_eq_ok h
    obtain ⟨more, hmore, h⟩ := exceptBind_eq_ok h
    rw [exceptPure, Except.ok.injEq] at h
    subst h
    rcases List.mem_append.mp he with hc | hm
    · exact wallboxEntities_name c wb chunk hchunk e hc
    · exact ih more hmore e hm

/-- Inversion of a successful `async_setup_entry`: the result is the static
entities followed by the wallbox-loop entities. -/
theorem async_setup_entry_eq_ok (uid : String) (c : Coordinator)
    (ents : List E3DCSwitch) (h : async_setup_entry uid c = Except.ok ents) :
    ∃ wbl, setupWallboxes c c.wallboxes = Except.ok wbl ∧
      ents = (SWITCHES.map
        (fun description => E3DCSwitch.init c description uid none)) ++ wbl := by
  simp only [async_setup_entry] at h
  obtain ⟨wbl, hwbl, h⟩ := exceptBind_eq_ok h
  rw [exceptPure, Except.ok.injEq] at h
  exact ⟨wbl, hwbl, h.symm⟩

/-- **C5.** For every descriptor in the static catalog, a successful platform
setup produces exactly one entity carrying that descriptor, and that
entity's unique id is the integration unique id, an underscore, and the
descriptor key. -/
theorem setup_static_catalog_unique_entity (uid : String) (c : Coordinator)
    (ents : List E3DCSwitch) (d : E3DCSwitchEntityDescription)
    (h : async_setup_entry uid c = Except.ok ents) (hd : d ∈ SWITCHES) :
    (ents.countP (fun e => decide (e.entity_description = d))) = 1 ∧
    (∀ e ∈ ents, e.entity_description = d →
      e.attr_unique_id = uid ++ "_" ++ d.key) := by
  obtain ⟨wbl, hwbl, rfl⟩ := async_setup_entry_eq_ok uid c ents h
  have hname := setupWallboxes_name c c.wallboxes wbl hwbl
  have hdname : d.name = none := staticDescriptions_name_none d hd
  have hwbzero : (wbl.countP (fun e => decide (e.entity_description = d))) = 0 := by
    rw [List.countP_eq_zero]
    intro e he
    simp only [decide_eq_true_eq]
    intro hde
    rcases hname e he with hn | hn <;> rw [hde, hdname] at hn <;> exact Option.noConfusion hn
  constructor
  · rw [List.countP_append, hwbzero]
    simp only [SWITCHES, List.mem_cons, List.mem_singleton, List.not_mem_nil,
      or_false] at hd
    rcases hd with rfl | rfl
    · simp [SWITCHES, List.countP_cons, E3DCSwitch.init, staticDescriptions_ne,
        Ne.symm staticDescriptions_ne]
    · simp [SWITCHES, List.countP_cons, E3DCSwitch.init, staticDescriptions_ne,
        Ne.symm staticDescriptions_ne]
  · intro e he hde
    rcases List.mem_append.mp he with hs | hw
    · simp only [SWITCHES, List.map_cons, List.map_nil] at hs
      rcases List.mem_cons.mp hs with rfl | hs2
      · rw [← hde]
        rfl
      · rcases List.mem_singleton.mp hs2 with rfl
        rw [← hde]
        rfl
    · exfalso
      rcases hname e hw with hn | hn <;> rw [hde, hdname] at hn <;> exact Option.noConfusion hn

/-- The static entities of a setup against the sample coordinator. -/
def sampleSetupEntities : List E3DCSwitch :=
  SWITCHES.map
    (fun description => E3DCSwitch.init sampleCoordinator description "e3dc" none)

/-- **C5 witness.** A setup with no wallboxes yields exactly one entity for
the power-saving descriptor. -/
theorem setup_static_catalog_unique_entity_witness :
    (sampleSetupEntities.countP
      (fun e => decide (e.entity_description = powersavingSwitchDescription))) = 1 := by
  have T := setup_static_catalog_unique_entity "e3dc" sampleCoordinator
    sampleSetupEntities powersavingSwitchDescription rfl (by decide)
  exact T.1

/-- A wallbox's entity chunk appears contiguously in the wallbox-loop
output. -/
theorem setupWallboxes_chunk (c : Coordinator) :
    ∀ (ws : List WallboxEntry) (l : List E3DCSwitch) (wb : WallboxEntry)
      (chunk : List E3DCSwitch),
      wb ∈ ws → setupWallboxes c ws = Except.ok l →
      wallboxEntities c wb = Except.ok chunk →
      ∃ pre post, l = pre ++ chunk ++ post := by
  intro ws
  induction ws with
  | nil =>
    intro l wb chunk hmem
    simp at hmem
  | cons w rest ih =>
    intro l wb chunk hmem h hchunk
    simp only [setupWallboxes] at h
    obtain ⟨es, hes, h⟩ := exceptBind_eq_ok h
    obtain ⟨more, hmore, h⟩ := exceptBind_eq_ok h
    rw [exceptPure, Except.ok.injEq] at h
    subst h
    rcases List.mem_cons.mp hmem with rfl | hmem2
    · rw [hchunk, Except.ok.injEq] at hes
      subst hes
      exact ⟨[], more, rfl⟩
    · obtain ⟨pre, post, hpp⟩ := ih more wb chunk hmem2 hmore hchunk
      exact ⟨es ++ pre, post, by rw [hpp]; simp⟩

/-- **C6.** For each wallbox in the coordinator's list with well-formed
identity data, the loop body produces exactly the sun-mode and Schuko
entities; their unique ids are `<wallbox_uid>_<wallbox_key>-sun-mode` and
`<wallbox_uid>_<wallbox_key>-schuko` (the wallbox uid being the second
component of the first identifier tuple), their bound actions call the
coordinator's wallbox sun-mode and Schuko setters with that wallbox's own
index, and on a successful setup those two entities appear (contiguously)
among the registered entities. -/
theorem setup_wallbox_two_entities (uid : String) (c : Coordinator)
    (ents : List E3DCSwitch) (wb : WallboxEntry) (di : DeviceInfo)
    (firstId : String × String) (restIds : List (String × String))
    (k : String) (i : Nat)
    (hwb : wb ∈ c.wallboxes)
    (hdi : wb.deviceInfo = some di)
    (hids : di.identifiers = firstId :: restIds)
    (hk : wb.key = some k)
    (hi : wb.index = some i)
    (h : async_setup_entry uid c = Except.ok ents) :
    wallboxEntities c wb = Except.ok
      [E3DCSwitch.init c (wallbox_sun_mode_description i k) firstId.2 (some di),
       E3DCSwitch.init c (wallbox_schuko_description i k) firstId.2 (some di)] ∧
    (E3DCSwitch.init c (wallbox_sun_mode_description i k) firstId.2
        (some di)).attr_unique_id = firstId.2 ++ "_" ++ k ++ "-sun-mode" ∧
    (E3DCSwitch.init c (wallbox_schuko_description i k) firstId.2
        (some di)).attr_unique_id = firstId.2 ++ "_" ++ k ++ "-schuko" ∧
    (wallbox_sun_mode_description i k).async_turn_on_action =
      some (CoordinatorCall.async_set_wallbox_sun_mode true i) ∧
    (wallbox_sun_mode_description i k).async_turn_off_action =
      some (CoordinatorCall.async_set_wallbox_sun_mode false i) ∧
    (wallbox_schuko_description i k).async_turn_on_action =
      some (CoordinatorCall.async_set_wallbox_schuko true i) ∧
    (wallbox_schuko_description i k).async_turn_off_action =
      some (CoordinatorCall.async_set_wallbox_schuko false i) ∧
    ∃ pre post,
      ents = pre ++
        [E3DCSwitch.init c (wallbox_sun_mode_description i k) firstId.2 (some di),
         E3DCSwitch.init c (wallbox_schuko_description i k) firstId.2 (some di)]
        ++ post := by
  have hchunk : wallboxEntities c wb = Except.ok
      [E3DCSwitch.init c (wallbox_sun_mode_description i k) firstId.2 (some di),
       E3DCSwitch.init c (wallbox_schuko_description i k) firstId.2 (some di)] := by
    simp [wallboxEntities, hdi, hids, hk, hi, getKey, getFirst, exceptOk_bind,
      exceptPure]
  refine ⟨hchunk, ?_, ?_, rfl, rfl, rfl, rfl, ?_⟩
  · simp [E3DCSwitch.init, wallbox_sun_mode_description, String.append_assoc]
  · simp [E3DCSwitch.init, wallbox_schuko_description, String.append_assoc]
  obtain ⟨wbl, hwbl, rfl⟩ := async_setup_entry_eq_ok uid c ents h
  obtain ⟨pre, post, hpp⟩ :=
    setupWallboxes_chunk c c.wallboxes wbl wb _ hwb hwbl hchunk
  refine ⟨(SWITCHES.map
      (fun description => E3DCSwitch.init c description uid none)) ++ pre,
    post, ?_⟩
  rw [hpp]
  simp

/-- Device metadata of the sample wallbox. -/
def wallboxDeviceInfo : DeviceInfo :=
  { identifiers := [("e3dc_rscp", "wallbox-uid")], name := some "Wallbox 0" }

/-- A well-formed wallbox entry. -/
def sampleWallbox : WallboxEntry :=
  { deviceInfo := some wallboxDeviceInfo
    key := some "wallbox-0"
    index := some 0 }

/-- A coordinator exposing one well-formed wallbox. -/
def wallboxCoordinator : Coordinator :=
  { data := [], wallboxes := [sampleWallbox], device_info := sampleDeviceInfo }

/-- The entities a setup against `wallboxCoordinator` registers. -/
def wallboxSetupEntities : List E3DCSwitch :=
  (SWITCHES.map
    (fun description => E3DCSwitch.init wallboxCoordinator description "e3dc" none)) ++
  [E3DCSwitch.init wallboxCoordinator (wallbox_sun_mode_description 0 "wallbox-0")
    "wallbox-uid" (some wallboxDeviceInfo),
   E3DCSwitch.init wallboxCoordinator (wallbox_schuko_description 0 "wallbox-0")
    "wallbox-uid" (some wallboxDeviceInfo)]

/-- **C6 witness.** The sample wallbox contributes exactly its sun-mode and
Schuko entities. -/
theorem setup_wallbox_two_entities_witness :
    wallboxEntities wallboxCoordinator sampleWallbox = Except.ok
      [E3DCSwitch.init wallboxCoordinator (wallbox_sun_mode_description 0 "wallbox-0")
        "wallbox-uid" (some wallboxDeviceInfo),
       E3DCSwitch.init wallboxCoordinator (wallbox_schuko_description 0 "wallbox-0")
        "wallbox-uid" (some wallboxDeviceInfo)] := by
  have T := setup_wallbox_two_entities "e3dc" wallboxCoordinator
    wallboxSetupEntities sampleWallbox wallboxDeviceInfo
    ("e3dc_rscp", "wallbox-uid") [] "wallbox-0" 0
    (List.mem_singleton.mpr rfl) rfl rfl rfl rfl rfl
  exact T.1

/-- **C7.** For every entity (whose stored custom-icon flag agrees with its
descriptor, as the constructor guarantees), if both an on-icon and an
off-icon are configured the reported icon is the on-icon exactly when the
state is ON and the off-icon otherwise; if either icon is missing, the
static default icon attribute is reported regardless of state.  The last
conjunct records that construction establishes the flag from the
descriptor. -/
theorem icon_selection (e : E3DCSwitch)
    (hinv : e.has_custom_icons =
      (e.entity_description.on_icon.isSome && e.entity_description.off_icon.isSome)) :
    (∀ a b, e.entity_description.on_icon = some a →
      e.entity_description.off_icon = some b →
      e.icon = if e.attr_is_on = some true then some a else some b) ∧
    ((e.entity_description.on_icon = none ∨ e.entity_description.off_icon = none) →
      e.icon = e.attr_icon) ∧
    (∀ (c : Coordinator) (d : E3DCSwitchEntityDescription) (uid : String)
        (dev : Option DeviceInfo),
      (E3DCSwitch.init c d uid dev).has_custom_icons =
        (d.on_icon.isSome && d.off_icon.isSome)) := by
  refine ⟨?_, ?_, fun c d uid dev => rfl⟩
  · intro a b ha hb
    simp [E3DCSwitch.icon, E3DCSwitch.is_on, hinv, ha, hb]
  · intro hnone
    have hfalse : e.has_custom_icons = false := by
      rcases hnone with hn | hn <;> simp [hinv, hn]
    simp [E3DCSwitch.icon, hfalse]

/-- **C7 witness.** The power-saving switch (icon pair configured, initial
state UNKNOWN) reports its off-icon. -/
theorem icon_selection_witness :
    powersaveSwitch.icon =
      if powersaveSwitch.attr_is_on = some true then some "mdi:leaf"
      else some "mdi:leaf-off" := by
  have T := icon_selection powersaveSwitch rfl
  exact T.1 "mdi:leaf" "mdi:leaf-off" rfl rfl

/-- **C8.** An entity's reported device association is the device metadata
supplied at construction when one was supplied (the wallbox case) and
otherwise the coordinator's default device metadata (the main-unit case),
and no entity operation (turn-on, turn-off, coordinator refresh) changes
it. -/
theorem device_info_fixed_at_construction :
    (∀ (c : Coordinator) (d : E3DCSwitchEntityDescription) (uid : String)
        (di : DeviceInfo),
      (E3DCSwitch.init c d uid (some di)).device_info = di) ∧
    (∀ (c : Coordinator) (d : E3DCSwitchEntityDescription) (uid : String),
      (E3DCSwitch.init c d uid none).device_info = c.device_info) ∧
    (∀ (e : E3DCSwitch) (remote : CoordinatorCall → Except Unit Bool),
      (e.async_turn_on remote).1.device_info = e.device_info ∧
      (e.async_turn_off remote).1.device_info = e.device_info) ∧
    (∀ (e : E3DCSwitch) (data : List (String × Bool)),
      (e.handle_coordinator_update data).1.device_info = e.device_info) := by
  refine ⟨fun c d uid di => rfl, fun c d uid => rfl, ?_, fun e data => rfl⟩
  intro e remote
  constructor
  · cases h : e.entity_description.async_turn_on_action <;>
      simp [E3DCSwitch.async_turn_on, h, E3DCSwitch.device_info]
  · cases h : e.entity_description.async_turn_off_action <;>
      simp [E3DCSwitch.async_turn_off, h, E3DCSwitch.device_info]

/-- A malformed wallbox entry errors in the loop body. -/
theorem wallboxEntities_error (c : Coordinator) (wb : WallboxEntry)
    (hbad : wb.deviceInfo = none ∨
      (∃ di, wb.deviceInfo = some di ∧ di.identifiers = []) ∨
      wb.key = none ∨ wb.index = none) :
    ∃ err, wallboxEntities c wb = Except.error err := by
  obtain ⟨odi, okey, oidx⟩ := wb
  rcases hbad with hb | ⟨di, hdi, hids⟩ | hb | hb
  · simp only at hb
    subst hb
    exact ⟨LookupError.keyError, rfl⟩
  · simp only at hdi
    subst hdi
    refine ⟨LookupError.indexError, ?_⟩
    simp [wallboxEntities, getKey, getFirst, hids, exceptOk_bind, exceptError_bind]
  · simp only at hb
    subst hb
    cases odi with
    | none => exact ⟨LookupError.keyError, rfl⟩
    | some di =>
      cases hids : di.identifiers with
      | nil =>
        refine ⟨LookupError.indexError, ?_⟩
        simp [wallboxEntities, getKey, getFirst, hids, exceptOk_bind, exceptError_bind]
      | cons firstId restIds =>
        refine ⟨LookupError.keyError, ?_⟩
        simp [wallboxEntities, getKey, getFirst, hids, exceptOk_bind, exceptError_bind]
  · simp only at hb
    subst hb
    cases odi with
    | none => exact ⟨LookupError.keyError, rfl⟩
    | some di =>
      cases hids : di.identifiers with
      | nil =>
        refine ⟨LookupError.indexError, ?_⟩
        simp [wallboxEntities, getKey, getFirst, hids, exceptOk_bind, exceptError_bind]
      | cons firstId restIds =>
        cases okey with
        | none =>
          refine ⟨LookupError.keyError, ?_⟩
          simp [wallboxEntities, getKey, getFirst, hids, exceptOk_bind, exceptError_bind]
        | some k =>
          refine ⟨LookupError.keyError, ?_⟩
          simp [wallboxEntities, getKey, getFirst, hids, exceptOk_bind, exceptError_bind]

/-- If any wallbox's loop body errors, the whole loop errors. -/
theorem setupWallboxes_error (c : Coordinator) :
    ∀ (ws : List WallboxEntry) (wb : WallboxEntry) (err : LookupError),
      wb ∈ ws → wallboxEntities c wb = Except.error err →
      ∃ err2, setupWallboxes c ws = Except.error err2 := by
  intro ws
  induction ws with
  | nil =>
    intro wb err hmem
    simp at hmem
  | cons w rest ih =>
    intro wb err hmem herr
    rcases List.mem_cons.mp hmem with rfl | hmem2
    · refine ⟨err, ?_⟩
      simp [setupWallboxes, herr, exceptError_bind]
    · cases hw : wallboxEntities c w with
      | error e2 =>
        refine ⟨e2, ?_⟩
        simp [setupWallboxes, hw, exceptError_bind]
      | ok es =>
        obtain ⟨err2, h2⟩ := ih wb err hmem2 herr
        refine ⟨err2, ?_⟩
        simp [setupWallboxes, hw, h2, exceptOk_bind, exceptError_bind]

/-- **C9.** A wallbox entry lacking its `"deviceInfo"` mapping, a non-empty
`"identifiers"` collection, or its `"key"` / `"index"` field makes platform
setup fail with a `LookupError` when that wallbox's entities are created:
`async_setup_entry` returns an error, so `async_add_entities` is never
reached and no entities are registered for that setup call. -/
theorem malformed_wallbox_setup_fails (uid : String) (c : Coordinator)
    (wb : WallboxEntry) (hwb : wb ∈ c.wallboxes)
    (hbad : wb.deviceInfo = none ∨
      (∃ di, wb.deviceInfo = some di ∧ di.identifiers = []) ∨
      wb.key = none ∨ wb.index = none) :
    exceptIsError (async_setup_entry uid c) = true := by
  obtain ⟨err, herr⟩ := wallboxEntities_error c wb hbad
  obtain ⟨err2, h2⟩ := setupWallboxes_error c c.wallboxes wb err hwb herr
  simp [async_setup_entry, h2, exceptError_bind, exceptIsError]

/-- A wallbox entry whose `"deviceInfo"` key is absent. -/
def malformedWallbox : WallboxEntry :=
  { deviceInfo := none, key := some "wallbox-1", index := some 1 }

/-- A coordinator exposing only the malformed wallbox. -/
def malformedCoordinator : Coordinator :=
  { data := [], wallboxes := [malformedWallbox], device_info := sampleDeviceInfo }

/-- **C9 witness.** Setup against the malformed-wallbox coordinator fails. -/
theorem malformed_wallbox_setup_fails_witness :
    exceptIsError (async_setup_entry "e3dc" malformedCoordinator) = true :=
  malformed_wallbox_setup_fails "e3dc" malformedCoordinator malformedWallbox
    (List.mem_singleton.mpr rfl) (Or.inl rfl)

/-- **C10.** When the descriptor key is absent from the coordinator's data
mapping, construction and coordinator refresh both set the entity's state to
UNKNOWN (`none`) — `dict.get` defaults instead of raising a lookup error. -/
theorem missing_key_state_unknown (c : Coordinator)
    (d : E3DCSwitchEntityDescription) (uid : String) (dev : Option DeviceInfo)
    (e : E3DCSwitch) (data : List (String × Bool))
    (hinit : dataGet c.data d.key = none)
    (href : dataGet data e.entity_description.key = none) :
    (E3DCSwitch.init c d uid dev).attr_is_on = none ∧
    (e.handle_coordinator_update data).1.attr_is_on = none := by
  constructor
  · simp [E3DCSwitch.init, hinit]
  · simp [E3DCSwitch.handle_coordinator_update, href]

/-- **C10 witness.** Against an empty data mapping, the power-saving entity
is constructed in the UNKNOWN state and stays UNKNOWN across a refresh. -/
theorem missing_key_state_unknown_witness :
    (E3DCSwitch.init sampleCoordinator powersavingSwitchDescription "e3dc"
      none).attr_is_on = none ∧
    (powersaveSwitch.handle_coordinator_update []).1.attr_is_on = none :=
  missing_key_state_unknown sampleCoordinator powersavingSwitchDescription
    "e3dc" none powersaveSwitch [] rfl rfl
